import Mathlib

/-!
Shallow embedding of the cart-pole (inverted pendulum) core of the repository.

Two variants of `InvertedPendulum.update_state` exist in the source:
* `src/InvertedPendulum/game/pendulum.py` — the human-play variant
  ("strict": action "None" sets the cart velocity to 0; terminal condition is
  angle-only).
* `src/InvertedPendulumAi/game/pendulum.py` — the multi-agent NEAT variant
  ("lenient": action "None" multiplies the cart velocity by 0.98; terminal
  condition is angle-or-wall, where the right wall test reads the module-level
  global `WINDOWDIMS[0]` rather than `self.WINDOWWIDTH`).

Numbers are modelled by `ℚ`.  The opaque numeric routines `np.cos`, `np.sin`
and the constant `np.pi / 2` are parameters (`NumLib`): every claim settled
here is structural (order of effects, clamping, error behaviour, loop
bookkeeping) and holds for every interpretation of these routines; concrete
witnesses instantiate them with simple computable functions.

Actions are strings, as in the source (`"Left"`, `"Right"`, `"None"`); any
other string raises, which we model with `Except`.  A Python method that
mutates `self` and may raise is embedded as a function returning the
post-call state *together with* the `Except` outcome, because on an invalid
action the source raises only after the physics fields were already mutated.
-/

/-- Constructor arguments of `InvertedPendulum.__init__` that the physics
reads: `WINDOWWIDTH`, `CARTWIDTH`, `PENDULUMLENGTH`, `GRAVITY`, `A_CART`. -/
structure Params where
  windowWidth : ℚ
  cartWidth : ℚ
  pendulumLength : ℚ
  gravity : ℚ
  aCart : ℚ
deriving DecidableEq

/-- The opaque numeric library: `np.cos`, `np.sin` and the constant
`np.pi / 2` (called `halfPi`).  The embedding is parametric in these. -/
structure NumLib where
  cos : ℚ → ℚ
  sin : ℚ → ℚ
  halfPi : ℚ

/-- The mutable numeric fields of an `InvertedPendulum` instance:
`is_dead`, `time`, `x_cart`, `v_cart`, `theta`, `omega`. -/
structure PState where
  is_dead : Bool
  time : ℤ
  x_cart : ℚ
  v_cart : ℚ
  theta : ℚ
  omega : ℚ
deriving DecidableEq

/-- The two error conditions of `update_state`: calling it on a dead state,
and passing an action string outside {"Left", "Right", "None"}. -/
inductive PendErr where
  | invalidState
  | invalidAction
deriving DecidableEq

/-- `InvertedPendulum.get_state` (identical in both source variants):
returns the 6-tuple `(is_dead, time, x_cart, v_cart, theta, omega)`. -/
def get_state (s : PState) : Bool × ℤ × ℚ × ℚ × ℚ × ℚ :=
  (s.is_dead, s.time, s.x_cart, s.v_cart, s.theta, s.omega)

/-- `InvertedPendulum.set_state` (identical in both source variants):
overwrites all six fields from the tuple, with no validation or clamping. -/
def set_state (_s : PState) (t : Bool × ℤ × ℚ × ℚ × ℚ × ℚ) : PState :=
  ⟨t.1, t.2.1, t.2.2.1, t.2.2.2.1, t.2.2.2.2.1, t.2.2.2.2.2⟩

/-- `InvertedPendulum.reset_state` of the human-play variant, with the random
draw `np.random.uniform(-0.01, 0.01)` for the initial angle passed in as
`theta0`: fresh live state centred in the window. -/
def reset_state (P : Params) (theta0 : ℚ) : PState :=
  ⟨false, 0, P.windowWidth / 2, 0, theta0, 0⟩

/-- `InvertedPendulum.update_state` of `src/InvertedPendulum/game/pendulum.py`
(human-play variant).  Mirrors the source line by line:
dead check; `time += 1`; `x_cart += v_cart`; the if/elif wall clamp (zeroing
`v_cart` when a branch is taken); the angle update using the post-clamp,
pre-action velocity; the angular-velocity update using the updated angle;
the action branch (`"None"` sets `v_cart = 0`; an unknown string raises at
this point, with the earlier mutations already applied); the angle-only
terminal check; and the returned 5-tuple. -/
def update_state (P : Params) (nl : NumLib) (s : PState) (action : String) :
    PState × Except PendErr (ℤ × ℚ × ℚ × ℚ × ℚ) :=
  if s.is_dead then (s, .error .invalidState)
  else
    let time := s.time + 1
    let xr := s.x_cart + s.v_cart
    let x := if xr ≤ P.cartWidth / 2 then P.cartWidth / 2
      else if xr ≥ P.windowWidth - P.cartWidth / 2 then P.windowWidth - P.cartWidth / 2
      else xr
    let v := if xr ≤ P.cartWidth / 2 then 0
      else if xr ≥ P.windowWidth - P.cartWidth / 2 then 0
      else s.v_cart
    let th := s.theta + s.omega + v * nl.cos s.theta / P.pendulumLength
    let om := s.omega + P.gravity * nl.sin th / P.pendulumLength
    if action = "Left" then
      let v2 := v - P.aCart
      let dead := if |th| ≥ nl.halfPi then true else s.is_dead
      (⟨dead, time, x, v2, th, om⟩, .ok (time, x, v2, th, om))
    else if action = "Right" then
      let v2 := v + P.aCart
      let dead := if |th| ≥ nl.halfPi then true else s.is_dead
      (⟨dead, time, x, v2, th, om⟩, .ok (time, x, v2, th, om))
    else if action = "None" then
      let v2 := (0 : ℚ)
      let dead := if |th| ≥ nl.halfPi then true else s.is_dead
      (⟨dead, time, x, v2, th, om⟩, .ok (time, x, v2, th, om))
    else
      (⟨s.is_dead, time, x, v, th, om⟩, .error .invalidAction)

/-- `InvertedPendulum.update_state` of
`src/InvertedPendulumAi/game/pendulum.py` (multi-agent variant).  Identical
to the human-play variant except: action `"None"` multiplies `v_cart` by
`0.98`, and the terminal check is angle-or-wall, with the right-wall bound
read from the module-level global `WINDOWDIMS[0]` (parameter `gW`) while the
left-wall bound uses the instance's `CARTWIDTH`. -/
def update_state_ai (P : Params) (gW : ℚ) (nl : NumLib) (s : PState) (action : String) :
    PState × Except PendErr (ℤ × ℚ × ℚ × ℚ × ℚ) :=
  if s.is_dead then (s, .error .invalidState)
  else
    let time := s.time + 1
    let xr := s.x_cart + s.v_cart
    let x := if xr ≤ P.cartWidth / 2 then P.cartWidth / 2
      else if xr ≥ P.windowWidth - P.cartWidth / 2 then P.windowWidth - P.cartWidth / 2
      else xr
    let v := if xr ≤ P.cartWidth / 2 then 0
      else if xr ≥ P.windowWidth - P.cartWidth / 2 then 0
      else s.v_cart
    let th := s.theta + s.omega + v * nl.cos s.theta / P.pendulumLength
    let om := s.omega + P.gravity * nl.sin th / P.pendulumLength
    if action = "Left" then
      let v2 := v - P.aCart
      let dead := if |th| ≥ nl.halfPi ∨ x ≤ P.cartWidth / 2 ∨ x ≥ gW - P.cartWidth / 2
        then true else s.is_dead
      (⟨dead, time, x, v2, th, om⟩, .ok (time, x, v2, th, om))
    else if action = "Right" then
      let v2 := v + P.aCart
      let dead := if |th| ≥ nl.halfPi ∨ x ≤ P.cartWidth / 2 ∨ x ≥ gW - P.cartWidth / 2
        then true else s.is_dead
      (⟨dead, time, x, v2, th, om⟩, .ok (time, x, v2, th, om))
    else if action = "None" then
      let v2 := v * (98 / 100)
      let dead := if |th| ≥ nl.halfPi ∨ x ≤ P.cartWidth / 2 ∨ x ≥ gW - P.cartWidth / 2
        then true else s.is_dead
      (⟨dead, time, x, v2, th, om⟩, .ok (time, x, v2, th, om))
    else
      (⟨s.is_dead, time, x, v, th, om⟩, .error .invalidAction)

/-- An operation on one `InvertedPendulum` object other than a fresh reset:
a physics step (`update_state`) or an unconditional `set_state`. -/
inductive Op where
  | update (action : String)
  | set (t : Bool × ℤ × ℚ × ℚ × ℚ × ℚ)

/-- Apply one operation to a human-play pendulum (a raising `update_state`
leaves whatever state the method left behind, as in the source). -/
def applyOp (P : Params) (nl : NumLib) (s : PState) : Op → PState
  | .update a => (update_state P nl s a).1
  | .set t => set_state s t

/-- Apply a sequence of operations, left to right. -/
def applyOps (P : Params) (nl : NumLib) : PState → List Op → PState
  | s, [] => s
  | s, op :: ops => applyOps P nl (applyOp P nl s op) ops

/-- Apply a sequence of `update_state` calls (human-play variant), keeping
the post-call state each time. -/
def applyUpdates (P : Params) (nl : NumLib) : PState → List String → PState
  | s, [] => s
  | s, a :: as_ => applyUpdates P nl (update_state P nl s a).1 as_

/-- Apply a sequence of `update_state` calls (multi-agent variant). -/
def applyUpdatesAi (P : Params) (gW : ℚ) (nl : NumLib) : PState → List String → PState
  | s, [] => s
  | s, a :: as_ => applyUpdatesAi P gW nl (update_state_ai P gW nl s a).1 as_

/-- The observation list built in `run_pendulum` for one agent, exactly as
the source builds it from the pre-update state:
`[(x - WINDOWDIMS[0]/2) / (WINDOWDIMS[0]/2), v / 5.0, np.sin(theta), omega / 5.0]`. -/
def obs_code (gW : ℚ) (nl : NumLib) (s : PState) : List ℚ :=
  [(s.x_cart - gW / 2) / (gW / 2), s.v_cart / 5, nl.sin s.theta, s.omega / 5]

/-- The observation vector as the spec's words describe it — "angle,
velocity, angular velocity, and normalized horizontal offset from world
center, normalization divisor = half the world width".  Spec-side definition
kept only to compare against `obs_code`. -/
def obs_claim (gW : ℚ) (s : PState) : List ℚ :=
  [s.theta, s.v_cart, s.omega, (s.x_cart - gW / 2) / (gW / 2)]

/-- `np.argmax` on a 3-element array: index of the first maximum. -/
def argmax3 (a b c : ℚ) : ℕ :=
  if a ≥ b ∧ a ≥ c then 0 else if b ≥ c then 1 else 2

/-- `["Left", "None", "Right"][np.argmax(output)]` in `run_pendulum`. -/
def actionOfOutput (a b c : ℚ) : String :=
  if argmax3 a b c = 0 then "Left" else if argmax3 a b c = 1 then "None" else "Right"

/-- One agent of the NEAT generation loop: its pendulum (`pendulums[i]`),
its genome's fitness accumulator (`ge[i].fitness`) and its network
(`nets[i]`), the network modelled as a function from the observation list to
the 3 output scores. -/
structure Agent where
  pend : PState
  fitness : ℚ
  net : List ℚ → ℚ × ℚ × ℚ

/-- The action chosen for one agent in a tick of `run_pendulum`:
the network is activated on `obs_code` of the pre-update state and the
result mapped through arg-max. -/
def agentDecide (gW : ℚ) (nl : NumLib) (net : List ℚ → ℚ × ℚ × ℚ) (s : PState) : String :=
  let o := net (obs_code gW nl s)
  actionOfOutput o.1 o.2.1 o.2.2

/-- The per-agent body of the tick loop in `run_pendulum` (physics and
fitness, rendering omitted): decide an action from the pre-update state,
call `update_state`, then apply the fitness increments in source order:
`+= 0.1`; `-= abs(dist_from_center) * 0.001` with
`dist_from_center = abs(x_cart - WINDOWDIMS[0]/2) / (WINDOWDIMS[0]/2)` of the
post-update state; `+= (1 - abs(theta)/(pi/2)) * 0.1` of the post-update
angle; and `-= 0.5` when the post-update `theta > pi/4`.  (The loop is only
ever run on live pendulums — the removal pass below keeps that invariant.) -/
def stepAgent (P : Params) (gW : ℚ) (nl : NumLib) (a : Agent) : Agent :=
  let action := agentDecide gW nl a.net a.pend
  let s2 := (update_state_ai P gW nl a.pend action).1
  let dist := |s2.x_cart - gW / 2| / (gW / 2)
  let f1 := a.fitness + 1 / 10
  let f2 := f1 - |dist| * (1 / 1000)
  let f3 := f2 + (1 - |s2.theta| / nl.halfPi) * (1 / 10)
  let f4 := if s2.theta > nl.halfPi / 2 then f3 - 1 / 2 else f3
  ⟨s2, f4, a.net⟩

/-- The terminal fitness penalty `ge[i].fitness -= 5` applied when an agent
is removed. -/
def penalize (a : Agent) : Agent :=
  ⟨a.pend, a.fitness - 5, a.net⟩

/-- The removal pass at the end of a tick of `run_pendulum`:
`for i in reversed(range(len(pendulums))): if pendulums[i].is_dead:` apply
the -5 penalty and pop index `i` from `ge`, `nets` and `pendulums`.
Because the loop walks indices from high to low and a pop at index `i` only
shifts the already-visited higher indices, it acts independently on each
element; it is embedded as the equivalent right-to-left recursion, returning
the surviving list and the removed (penalized) agents. -/
def removalPass : List Agent → List Agent × List Agent
  | [] => ([], [])
  | a :: rest =>
    let lr := removalPass rest
    if a.pend.is_dead then (lr.1, penalize a :: lr.2)
    else (a :: lr.1, lr.2)

/-- One full tick of the generation loop: step every agent in the live
list, then run the removal pass.  Returns (surviving agents, removed
agents with their final penalized fitness). -/
def tick (P : Params) (gW : ℚ) (nl : NumLib) (agents : List Agent) :
    List Agent × List Agent :=
  removalPass (agents.map (stepAgent P gW nl))

/-- The generation as a state machine: `Running` holds the live list;
`Exhausted` is reached when the `while pendulums and ge:` guard fails. -/
inductive GenState where
  | Running : List Agent → GenState
  | Exhausted : GenState

/-- One iteration of the `while pendulums and ge:` loop head: an empty live
list exits the loop (`Exhausted`); otherwise one tick runs. -/
def genStep (P : Params) (gW : ℚ) (nl : NumLib) : GenState → GenState
  | .Exhausted => .Exhausted
  | .Running agents =>
    if agents.isEmpty then .Exhausted else .Running (tick P gW nl agents).1

/-- The per-tick fitness increment of one live agent, written as a single
pure function of the world half-width, the `pi/2` constant and that agent's
own post-update state. -/
def tickReward (gW hp : ℚ) (s : PState) : ℚ :=
  1 / 10 - |(|s.x_cart - gW / 2| / (gW / 2))| * (1 / 1000)
    + (1 - |s.theta| / hp) * (1 / 10)
    - (if s.theta > hp / 2 then 1 / 2 else 0)

/-- Concrete parameters: the values of `WINDOWDIMS`, `CARTDIMS`,
`PENDULUMDIMS`, `GRAVITY`, `A_CART` in the human-play module. -/
def P0 : Params := ⟨1200, 50, 200, 13 / 100, 15 / 100⟩

/-- A concrete computable interpretation of the opaque numeric library,
used in witnesses and counterexamples. -/
def nl0 : NumLib := ⟨fun _ => 1, fun _ => 0, 157 / 100⟩

/-- A concrete live state just beyond the right wall with positive
velocity (right wall is at `1200 - 50/2 = 1175`). -/
def sEdge : PState := ⟨false, 0, 1176, 1, 0, 0⟩

/-- A concrete dead state. -/
def sDead : PState := ⟨true, 5, 600, 0, 2, 0⟩

/-- A concrete live, centred state. -/
def sLive : PState := ⟨false, 0, 600, 1, 0, 0⟩

/-- The state the human-play `update_state` has built at the moment the
invalid-action branch raises: time, position (with clamp), angle and angular
velocity already mutated; velocity only as far as the clamp zeroed it; the
terminal flag untouched.  The multi-agent variant is identical up to this
point. -/
def midUpdate (P : Params) (nl : NumLib) (s : PState) : PState :=
  let time := s.time + 1
  let xr := s.x_cart + s.v_cart
  let x := if xr ≤ P.cartWidth / 2 then P.cartWidth / 2
    else if xr ≥ P.windowWidth - P.cartWidth / 2 then P.windowWidth - P.cartWidth / 2
    else xr
  let v := if xr ≤ P.cartWidth / 2 then 0
    else if xr ≥ P.windowWidth - P.cartWidth / 2 then 0
    else s.v_cart
  let th := s.theta + s.omega + v * nl.cos s.theta / P.pendulumLength
  let om := s.omega + P.gravity * nl.sin th / P.pendulumLength
  ⟨s.is_dead, time, x, v, th, om⟩

/-- A concrete agent: live centred pendulum, zero fitness, and a network
whose first output always wins the arg-max. -/
def ag0 : Agent := ⟨sLive, 0, fun _ => (1, 0, 0)⟩

/-- Effect (2)+(3) of the claimed update order, position part: `position +=
velocity`, then clamped to `[halfCartWidth, worldWidth - halfCartWidth]`. -/
def specClampX (P : Params) (s : PState) : ℚ :=
  if s.x_cart + s.v_cart ≤ P.cartWidth / 2 then P.cartWidth / 2
  else if s.x_cart + s.v_cart ≥ P.windowWidth - P.cartWidth / 2 then
    P.windowWidth - P.cartWidth / 2
  else s.x_cart + s.v_cart

/-- Effect (3) of the claimed update order, velocity part: the velocity after
the clamp — set to 0 when a clamp branch was taken, else unchanged. -/
def specClampV (P : Params) (s : PState) : ℚ :=
  if s.x_cart + s.v_cart ≤ P.cartWidth / 2 then 0
  else if s.x_cart + s.v_cart ≥ P.windowWidth - P.cartWidth / 2 then 0
  else s.v_cart

/-- Effect (4): `angle += angularVelocity + velocity * cos(angle) /
pendulumLength`, with the pre-action (post-clamp) velocity of this tick. -/
def specAngle (P : Params) (nl : NumLib) (s : PState) : ℚ :=
  s.theta + s.omega + specClampV P s * nl.cos s.theta / P.pendulumLength

/-- Effect (5): `angularVelocity += gravity * sin(angle) / pendulumLength`,
with the already-updated angle. -/
def specOmega (P : Params) (nl : NumLib) (s : PState) : ℚ :=
  s.omega + P.gravity * nl.sin (specAngle P nl s) / P.pendulumLength

/-- Effect (6), strict (human-play) variant: Left subtracts `accel`, Right
adds it, None resets the velocity to 0. -/
def specVel (P : Params) (s : PState) (a : String) : ℚ :=
  if a = "Left" then specClampV P s - P.aCart
  else if a = "Right" then specClampV P s + P.aCart
  else 0

/-- Effect (6), lenient (multi-agent) variant: None multiplies the velocity
by the friction factor 0.98. -/
def specVelAi (P : Params) (s : PState) (a : String) : ℚ :=
  if a = "Left" then specClampV P s - P.aCart
  else if a = "Right" then specClampV P s + P.aCart
  else specClampV P s * (98 / 100)

/-- Effect (7), human-play variant: terminal flag recomputed from the
updated angle alone. -/
def specDead (P : Params) (nl : NumLib) (s : PState) : Bool :=
  if |specAngle P nl s| ≥ nl.halfPi then true else false

/-- Effect (7), multi-agent variant: terminal flag recomputed from the
updated angle or the post-clamp position reaching a wall bound (the right
bound coming from the module global `gW`). -/
def specDeadAi (P : Params) (gW : ℚ) (nl : NumLib) (s : PState) : Bool :=
  if |specAngle P nl s| ≥ nl.halfPi ∨ specClampX P s ≤ P.cartWidth / 2 ∨
      specClampX P s ≥ gW - P.cartWidth / 2
    then true else false

theorem update_state_of_dead (P : Params) (nl : NumLib) (s : PState) (a : String)
    (h : s.is_dead = true) :
    update_state P nl s a = (s, .error .invalidState) := by
  simp [update_state, h]

theorem update_state_ai_of_dead (P : Params) (gW : ℚ) (nl : NumLib) (s : PState) (a : String)
    (h : s.is_dead = true) :
    update_state_ai P gW nl s a = (s, .error .invalidState) := by
  simp [update_state_ai, h]

/-- C10: `get_state` after `set_state` is the identity — for every 6-tuple
`(is_dead, time, x_cart, v_cart, theta, omega)`, `set_state` followed by
`get_state` returns exactly that tuple, with no validation or clamping, in
particular for out-of-bounds positions, large angles with `is_dead = false`,
or `is_dead = true`. -/
theorem C10_get_after_set (s : PState) (t : Bool × ℤ × ℚ × ℚ × ℚ × ℚ) :
    get_state (set_state s t) = t := by
  obtain ⟨d, tt, x, v, th, om⟩ := t
  rfl

/-- C3: `update_state` fails if and only if the state is already dead
(`invalidState`) or the action string is outside {"Left", "Right", "None"}
(`invalidAction`); on every live state and valid action it completes with an
`ok` result.  Both source variants. -/
theorem C3_error_iff (P : Params) (gW : ℚ) (nl : NumLib) (s : PState) (a : String) :
    ((update_state P nl s a).2 = .error .invalidState ↔ s.is_dead = true) ∧
    ((update_state P nl s a).2 = .error .invalidAction ↔
      s.is_dead = false ∧ ¬(a = "Left" ∨ a = "Right" ∨ a = "None")) ∧
    ((∃ t, (update_state P nl s a).2 = .ok t) ↔
      s.is_dead = false ∧ (a = "Left" ∨ a = "Right" ∨ a = "None")) ∧
    ((update_state_ai P gW nl s a).2 = .error .invalidState ↔ s.is_dead = true) ∧
    ((update_state_ai P gW nl s a).2 = .error .invalidAction ↔
      s.is_dead = false ∧ ¬(a = "Left" ∨ a = "Right" ∨ a = "None")) ∧
    ((∃ t, (update_state_ai P gW nl s a).2 = .ok t) ↔
      s.is_dead = false ∧ (a = "Left" ∨ a = "Right" ∨ a = "None")) := by
  cases h : s.is_dead <;>
    by_cases hL : a = "Left" <;>
    by_cases hR : a = "Right" <;>
    by_cases hN : a = "None" <;>
    simp_all [update_state, update_state_ai]

/-- C9 (amended): `advance` is atomic only for the already-terminal error:
there the state is returned unchanged.  For an invalid action the error is
raised after the physics mutations, so the state is left partially updated
(`midUpdate`): time, clamped position, angle and angular velocity are
changed, while the action effect and the terminal check are not applied. -/
theorem C9_atomicity_amended (P : Params) (gW : ℚ) (nl : NumLib) (s : PState) (a : String) :
    (s.is_dead = true →
      (update_state P nl s a).1 = s ∧ (update_state_ai P gW nl s a).1 = s) ∧
    (s.is_dead = false → ¬(a = "Left" ∨ a = "Right" ∨ a = "None") →
      (update_state P nl s a).1 = midUpdate P nl s ∧
      (update_state_ai P gW nl s a).1 = midUpdate P nl s) := by
  constructor
  · intro h
    rw [update_state_of_dead P nl s a h, update_state_ai_of_dead P gW nl s a h]
    exact ⟨rfl, rfl⟩
  · intro h ha
    push_neg at ha
    obtain ⟨hL, hR, hN⟩ := ha
    simp [update_state, update_state_ai, midUpdate, h, hL, hR, hN]

/-- C9 witness: the dead-state branch of the atomicity theorem at a concrete
input, and the invalid-action branch at a concrete input. -/
theorem C9_atomicity_amended_witness :
    ((update_state P0 nl0 sDead "Left").1 = sDead ∧
      (update_state_ai P0 1200 nl0 sDead "Left").1 = sDead) ∧
    ((update_state P0 nl0 sLive "Up").1 = midUpdate P0 nl0 sLive ∧
      (update_state_ai P0 1200 nl0 sLive "Up").1 = midUpdate P0 nl0 sLive) :=
  ⟨(C9_atomicity_amended P0 1200 nl0 sDead "Left").1 rfl,
   (C9_atomicity_amended P0 1200 nl0 sLive "Up").2 rfl (by decide)⟩

/-- C9 counterexample: on a live centred state, the invalid action "Up"
raises `invalidAction`, yet the state has changed — the update was not
"fully applied or not applied at all". -/
theorem C9_counterexample :
    (update_state P0 nl0 sLive "Up").2 = .error .invalidAction ∧
    (update_state P0 nl0 sLive "Up").1 ≠ sLive := by
  refine ⟨rfl, ?_⟩
  decide

/-- C4 (amended): `isTerminal` is monotonic under `advance`: along every
sequence of `update_state` calls (either variant) a dead state stays dead —
the flag never reverts true→false.  (`set_state` is excluded: it overwrites
the flag unconditionally, see the counterexample.) -/
theorem C4_monotonic_amended (P : Params) (gW : ℚ) (nl : NumLib) (s : PState)
    (acts : List String) (h : s.is_dead = true) :
    (applyUpdates P nl s acts).is_dead = true ∧
    (applyUpdatesAi P gW nl s acts).is_dead = true := by
  induction acts generalizing s with
  | nil => exact ⟨h, h⟩
  | cons a rest ih =>
      have h1 : (update_state P nl s a).1 = s := by
        rw [update_state_of_dead P nl s a h]
      have h2 : (update_state_ai P gW nl s a).1 = s := by
        rw [update_state_ai_of_dead P gW nl s a h]
      refine ⟨?_, ?_⟩
      · show (applyUpdates P nl (update_state P nl s a).1 rest).is_dead = true
        rw [h1]
        exact (ih s h).1
      · show (applyUpdatesAi P gW nl (update_state_ai P gW nl s a).1 rest).is_dead = true
        rw [h2]
        exact (ih s h).2

/-- C4 witness: the monotonicity theorem applied to a concrete dead state
and a concrete action sequence. -/
theorem C4_monotonic_amended_witness :
    (applyUpdates P0 nl0 sDead ["Left", "None"]).is_dead = true ∧
    (applyUpdatesAi P0 1200 nl0 sDead ["Left", "None"]).is_dead = true :=
  C4_monotonic_amended P0 1200 nl0 sDead ["Left", "None"] rfl

/-- C4 counterexample: `set_state` is an operation other than a fresh reset,
and one `set_state` call reverts `isTerminal` from true to false — the claim
quantified over all non-reset operation sequences is false. -/
theorem C4_counterexample :
    sDead.is_dead = true ∧
    (applyOps P0 nl0 sDead [Op.set (false, 5, 600, 0, 2, 0)]).is_dead = false := by
  decide

theorem update_state_unfold (P : Params) (nl : NumLib) (s : PState) (a : String)
    (hlive : s.is_dead = false) (ha : a = "Left" ∨ a = "Right" ∨ a = "None") :
    update_state P nl s a =
      (⟨specDead P nl s, s.time + 1, specClampX P s, specVel P s a,
          specAngle P nl s, specOmega P nl s⟩,
        .ok (s.time + 1, specClampX P s, specVel P s a,
          specAngle P nl s, specOmega P nl s)) := by
  rcases ha with h | h | h <;> subst h <;>
    simp [update_state, specDead, specClampX, specClampV, specAngle, specOmega,
      specVel, hlive]

theorem update_state_ai_unfold (P : Params) (gW : ℚ) (nl : NumLib) (s : PState) (a : String)
    (hlive : s.is_dead = false) (ha : a = "Left" ∨ a = "Right" ∨ a = "None") :
    update_state_ai P gW nl s a =
      (⟨specDeadAi P gW nl s, s.time + 1, specClampX P s, specVelAi P s a,
          specAngle P nl s, specOmega P nl s⟩,
        .ok (s.time + 1, specClampX P s, specVelAi P s a,
          specAngle P nl s, specOmega P nl s)) := by
  rcases ha with h | h | h <;> subst h <;>
    simp [update_state_ai, specDeadAi, specClampX, specClampV, specAngle, specOmega,
      specVelAi, hlive]

/-- C1: on every live state and action in {Left, Right, None}, `advance`
applies its effects in the claimed order — time +1; position += velocity;
clamp with velocity zeroing; angle update from the pre-action velocity;
angular-velocity update from the updated angle; the action effect on
velocity (strict reset in the human-play variant, 0.98 friction in the
multi-agent variant); the recomputed terminal flag — and returns the
post-update tuple `(time, position, velocity, angle, angularVelocity)`. -/
theorem C1_update_order (P : Params) (gW : ℚ) (nl : NumLib) (s : PState) (a : String)
    (hlive : s.is_dead = false) (ha : a = "Left" ∨ a = "Right" ∨ a = "None") :
    update_state P nl s a =
      (⟨specDead P nl s, s.time + 1, specClampX P s, specVel P s a,
          specAngle P nl s, specOmega P nl s⟩,
        .ok (s.time + 1, specClampX P s, specVel P s a,
          specAngle P nl s, specOmega P nl s)) ∧
    update_state_ai P gW nl s a =
      (⟨specDeadAi P gW nl s, s.time + 1, specClampX P s, specVelAi P s a,
          specAngle P nl s, specOmega P nl s⟩,
        .ok (s.time + 1, specClampX P s, specVelAi P s a,
          specAngle P nl s, specOmega P nl s)) :=
  ⟨update_state_unfold P nl s a hlive ha, update_state_ai_unfold P gW nl s a hlive ha⟩

/-- C1 witness: the update-order theorem applied to a concrete live state
and the action "Left". -/
theorem C1_update_order_witness :
    update_state P0 nl0 sLive "Left" =
      (⟨specDead P0 nl0 sLive, sLive.time + 1, specClampX P0 sLive,
          specVel P0 sLive "Left", specAngle P0 nl0 sLive, specOmega P0 nl0 sLive⟩,
        .ok (sLive.time + 1, specClampX P0 sLive, specVel P0 sLive "Left",
          specAngle P0 nl0 sLive, specOmega P0 nl0 sLive)) ∧
    update_state_ai P0 1200 nl0 sLive "Left" =
      (⟨specDeadAi P0 1200 nl0 sLive, sLive.time + 1, specClampX P0 sLive,
          specVelAi P0 sLive "Left", specAngle P0 nl0 sLive, specOmega P0 nl0 sLive⟩,
        .ok (sLive.time + 1, specClampX P0 sLive, specVelAi P0 sLive "Left",
          specAngle P0 nl0 sLive, specOmega P0 nl0 sLive)) :=
  C1_update_order P0 1200 nl0 sLive "Left" rfl (Or.inl rfl)

/-- C2: after a successful `advance` from a live state, the human-play
variant is terminal exactly when the updated |angle| reaches pi/2, and the
multi-agent variant (with instance width equal to the module-global width,
as `run_pendulum` constructs it) is terminal exactly when the updated
|angle| reaches pi/2 or the post-clamp position sits at a wall bound;
`advance` sets the flag for no other reason. -/
theorem C2_terminal_iff (P : Params) (gW : ℚ) (nl : NumLib) (s : PState) (a : String)
    (hlive : s.is_dead = false) (ha : a = "Left" ∨ a = "Right" ∨ a = "None")
    (hW : gW = P.windowWidth) :
    ((update_state P nl s a).1.is_dead = true ↔
      |(update_state P nl s a).1.theta| ≥ nl.halfPi) ∧
    ((update_state_ai P gW nl s a).1.is_dead = true ↔
      (|(update_state_ai P gW nl s a).1.theta| ≥ nl.halfPi ∨
        (update_state_ai P gW nl s a).1.x_cart = P.cartWidth / 2 ∨
        (update_state_ai P gW nl s a).1.x_cart = P.windowWidth - P.cartWidth / 2)) := by
  subst hW
  rw [update_state_unfold P nl s a hlive ha,
    update_state_ai_unfold P (P.windowWidth) nl s a hlive ha]
  constructor
  · show specDead P nl s = true ↔ |specAngle P nl s| ≥ nl.halfPi
    unfold specDead
    split_ifs with h <;> simp [h]
  · show specDeadAi P P.windowWidth nl s = true ↔
      (|specAngle P nl s| ≥ nl.halfPi ∨ specClampX P s = P.cartWidth / 2 ∨
        specClampX P s = P.windowWidth - P.cartWidth / 2)
    unfold specDeadAi specClampX
    by_cases h1 : s.x_cart + s.v_cart ≤ P.cartWidth / 2
    · simp [h1]
    · by_cases h2 : s.x_cart + s.v_cart ≥ P.windowWidth - P.cartWidth / 2
      · simp [h1, h2]
      · have e1 : s.x_cart + s.v_cart ≠ P.cartWidth / 2 := by
          intro e
          exact h1 (le_of_eq e)
        have e2 : s.x_cart + s.v_cart ≠ P.windowWidth - P.cartWidth / 2 := by
          intro e
          exact h2 (ge_of_eq e)
        simp only [h1, h2, if_false, e1, e2, or_false]
        split_ifs with h <;> simp [h]

/-- C2 witness: the terminal-condition theorem applied to a concrete live
state and the action "None". -/
theorem C2_terminal_iff_witness :
    (((update_state P0 nl0 sLive "None").1.is_dead = true ↔
      |(update_state P0 nl0 sLive "None").1.theta| ≥ nl0.halfPi) ∧
    ((update_state_ai P0 1200 nl0 sLive "None").1.is_dead = true ↔
      (|(update_state_ai P0 1200 nl0 sLive "None").1.theta| ≥ nl0.halfPi ∨
        (update_state_ai P0 1200 nl0 sLive "None").1.x_cart = P0.cartWidth / 2 ∨
        (update_state_ai P0 1200 nl0 sLive "None").1.x_cart =
          P0.windowWidth - P0.cartWidth / 2))) :=
  C2_terminal_iff P0 1200 nl0 sLive "None" rfl (Or.inr (Or.inr rfl)) rfl

/-- C5 (amended): from a live state at `position = worldWidth -
halfCartWidth + ε` (`ε > 0`) with positive velocity, one `advance` clamps
the position to `worldWidth - halfCartWidth` for every action in
{Left, Right, None}, in both variants; the cart velocity is zeroed by the
clamp, so the post-state velocity is 0 for the action None — but for Left it
is `-accel` and for Right `+accel`, since the action effect runs after the
clamp. -/
theorem C5_clamp_amended (P : Params) (gW : ℚ) (nl : NumLib) (s : PState) (e : ℚ)
    (hlive : s.is_dead = false) (hx : s.x_cart = P.windowWidth - P.cartWidth / 2 + e)
    (he : 0 < e) (hv : 0 < s.v_cart) (hcw : P.cartWidth ≤ P.windowWidth) :
    ((update_state P nl s "Left").1.x_cart = P.windowWidth - P.cartWidth / 2 ∧
      (update_state P nl s "Right").1.x_cart = P.windowWidth - P.cartWidth / 2 ∧
      (update_state P nl s "None").1.x_cart = P.windowWidth - P.cartWidth / 2) ∧
    ((update_state_ai P gW nl s "Left").1.x_cart = P.windowWidth - P.cartWidth / 2 ∧
      (update_state_ai P gW nl s "Right").1.x_cart = P.windowWidth - P.cartWidth / 2 ∧
      (update_state_ai P gW nl s "None").1.x_cart = P.windowWidth - P.cartWidth / 2) ∧
    (update_state P nl s "None").1.v_cart = 0 ∧
    (update_state_ai P gW nl s "None").1.v_cart = 0 ∧
    (update_state P nl s "Left").1.v_cart = -P.aCart ∧
    (update_state P nl s "Right").1.v_cart = P.aCart := by
  have h2 : s.x_cart + s.v_cart ≥ P.windowWidth - P.cartWidth / 2 := by
    rw [hx]
    linarith
  have h1 : ¬(s.x_cart + s.v_cart ≤ P.cartWidth / 2) := by
    rw [hx]
    intro hcontra
    linarith
  have hX : specClampX P s = P.windowWidth - P.cartWidth / 2 := by
    unfold specClampX
    rw [if_neg h1, if_pos h2]
  have hV : specClampV P s = 0 := by
    unfold specClampV
    rw [if_neg h1, if_pos h2]
  have uL := update_state_unfold P nl s "Left" hlive (Or.inl rfl)
  have uR := update_state_unfold P nl s "Right" hlive (Or.inr (Or.inl rfl))
  have uN := update_state_unfold P nl s "None" hlive (Or.inr (Or.inr rfl))
  have aL := update_state_ai_unfold P gW nl s "Left" hlive (Or.inl rfl)
  have aR := update_state_ai_unfold P gW nl s "Right" hlive (Or.inr (Or.inl rfl))
  have aN := update_state_ai_unfold P gW nl s "None" hlive (Or.inr (Or.inr rfl))
  rw [uL, uR, uN, aL, aR, aN]
  refine ⟨⟨hX, hX, hX⟩, ⟨hX, hX, hX⟩, ?_, ?_, ?_, ?_⟩ <;>
    simp [specVel, specVelAi, hV]

/-- C5 witness: the clamp theorem applied at the concrete edge state
`sEdge` (position 1176 = 1175 + 1, velocity 1) with the human-play
parameters. -/
theorem C5_clamp_amended_witness :
    ((update_state P0 nl0 sEdge "Left").1.x_cart = P0.windowWidth - P0.cartWidth / 2 ∧
      (update_state P0 nl0 sEdge "Right").1.x_cart = P0.windowWidth - P0.cartWidth / 2 ∧
      (update_state P0 nl0 sEdge "None").1.x_cart = P0.windowWidth - P0.cartWidth / 2) ∧
    ((update_state_ai P0 1200 nl0 sEdge "Left").1.x_cart = P0.windowWidth - P0.cartWidth / 2 ∧
      (update_state_ai P0 1200 nl0 sEdge "Right").1.x_cart = P0.windowWidth - P0.cartWidth / 2 ∧
      (update_state_ai P0 1200 nl0 sEdge "None").1.x_cart = P0.windowWidth - P0.cartWidth / 2) ∧
    (update_state P0 nl0 sEdge "None").1.v_cart = 0 ∧
    (update_state_ai P0 1200 nl0 sEdge "None").1.v_cart = 0 ∧
    (update_state P0 nl0 sEdge "Left").1.v_cart = -P0.aCart ∧
    (update_state P0 nl0 sEdge "Right").1.v_cart = P0.aCart :=
  C5_clamp_amended P0 1200 nl0 sEdge 1 rfl (by norm_num [sEdge, P0]) (by norm_num)
    (by norm_num [sEdge]) (by norm_num [P0])

/-- C5 counterexample: at the concrete edge state, the action "Left" yields
the clamped position 1175 but velocity `-3/20 = -A_CART`, not 0 — the claim
"velocity == 0 for every action in {Left, Right, None}" is false. -/
theorem C5_counterexample :
    (update_state P0 nl0 sEdge "Left").1.x_cart = 1175 ∧
    (update_state P0 nl0 sEdge "Left").1.v_cart = -(3 / 20) ∧
    ((-(3 / 20) : ℚ) ≠ 0) := by
  have h := update_state_unfold P0 nl0 sEdge "Left" rfl (Or.inl rfl)
  rw [h]
  refine ⟨?_, ?_, by norm_num⟩ <;>
    norm_num [specClampX, specClampV, specVel, sEdge, P0]

theorem removalPass_fst (l : List Agent) :
    (removalPass l).1 = l.filter (fun a => !a.pend.is_dead) := by
  induction l with
  | nil => rfl
  | cons a rest ih =>
      cases h : a.pend.is_dead <;> simp [removalPass, List.filter_cons, h, ih]

theorem removalPass_snd (l : List Agent) :
    (removalPass l).2 = (l.filter (fun a => a.pend.is_dead)).map penalize := by
  induction l with
  | nil => rfl
  | cons a rest ih =>
      cases h : a.pend.is_dead <;> simp [removalPass, List.filter_cons, h, ih]

theorem removalPass_length (l : List Agent) :
    (removalPass l).1.length + (removalPass l).2.length = l.length := by
  induction l with
  | nil => rfl
  | cons a rest ih =>
      cases h : a.pend.is_dead <;> simp [removalPass, h] <;> omega

/-- C6 (amended): in the generation loop, the action for each live agent is
chosen by activating its network on the observation list
`[(x - W/2)/(W/2), v/5, sin(theta), omega/5]` built from its own pre-update
state — normalized offset first, velocity and angular velocity scaled by
1/5, and the sine of the angle rather than the raw angle — and mapping the
arg-max (first maximum) of the 3 outputs through ["Left", "None", "Right"];
that action is what the agent's `update_state` receives. -/
theorem C6_observation_amended (P : Params) (gW : ℚ) (nl : NumLib) (ag : Agent) :
    obs_code gW nl ag.pend =
      [(ag.pend.x_cart - gW / 2) / (gW / 2), ag.pend.v_cart / 5,
        nl.sin ag.pend.theta, ag.pend.omega / 5] ∧
    agentDecide gW nl ag.net ag.pend =
      (let o := ag.net (obs_code gW nl ag.pend)
        if o.1 ≥ o.2.1 ∧ o.1 ≥ o.2.2 then "Left"
        else if o.2.1 ≥ o.2.2 then "None" else "Right") ∧
    (stepAgent P gW nl ag).pend =
      (update_state_ai P gW nl ag.pend (agentDecide gW nl ag.net ag.pend)).1 := by
  refine ⟨rfl, ?_, rfl⟩
  show actionOfOutput (ag.net (obs_code gW nl ag.pend)).1
      (ag.net (obs_code gW nl ag.pend)).2.1 (ag.net (obs_code gW nl ag.pend)).2.2 = _
  unfold actionOfOutput argmax3
  by_cases hA : (ag.net (obs_code gW nl ag.pend)).1 ≥ (ag.net (obs_code gW nl ag.pend)).2.1 ∧
      (ag.net (obs_code gW nl ag.pend)).1 ≥ (ag.net (obs_code gW nl ag.pend)).2.2 <;>
    by_cases hB : (ag.net (obs_code gW nl ag.pend)).2.1 ≥ (ag.net (obs_code gW nl ag.pend)).2.2 <;>
    simp [hA, hB]

/-- C6 counterexample: at a concrete live state (velocity 1), the
observation the code builds differs from the claimed vector (angle,
velocity, angular velocity, normalized offset): the value 1 (the raw
velocity) is a component of the claimed vector but of no component of the
code's vector, whose velocity entry is 1/5 — so the two differ as lists and
even as unordered collections. -/
theorem C6_counterexample :
    obs_code 1200 nl0 sLive ≠ obs_claim 1200 sLive ∧
    (1 : ℚ) ∈ obs_claim 1200 sLive ∧ (1 : ℚ) ∉ obs_code 1200 nl0 sLive := by
  refine ⟨?_, ?_, ?_⟩ <;> norm_num [obs_code, obs_claim, sLive, nl0]

/-- C7: after a tick of the generation loop, the surviving list is exactly
the just-stepped agents whose state is not terminal, every newly-terminal
agent is removed (with its penalty) exactly once — survivors and removed
partition the stepped population — no terminal agent remains in the live
list, and an empty live list makes the `while pendulums and ge` guard exit
the generation (Exhausted). -/
theorem C7_tick_removal (P : Params) (gW : ℚ) (nl : NumLib) (agents : List Agent) :
    (tick P gW nl agents).1 =
      (agents.map (stepAgent P gW nl)).filter (fun a => !a.pend.is_dead) ∧
    (tick P gW nl agents).2 =
      ((agents.map (stepAgent P gW nl)).filter (fun a => a.pend.is_dead)).map penalize ∧
    (∀ a ∈ (tick P gW nl agents).1, a.pend.is_dead = false) ∧
    (tick P gW nl agents).1.length + (tick P gW nl agents).2.length = agents.length ∧
    genStep P gW nl (.Running []) = .Exhausted := by
  refine ⟨removalPass_fst _, removalPass_snd _, ?_, ?_, rfl⟩
  · intro a ha
    rw [show (tick P gW nl agents).1 = _ from removalPass_fst _] at ha
    simpa using (List.of_mem_filter ha)
  · unfold tick
    rw [removalPass_length]
    exact List.length_map _ _

/-- C8 (amended): per tick, each live agent's fitness increment is a pure
function of its own post-update state: +0.1 survival, +0.1·(1 − |angle|/(π/2))
uprightness (a constant plus a penalty proportional to |angle|),
−0.001·(normalized distance from center), plus a discontinuous −0.5 penalty
when angle > π/4 (one-sided, applied to positive angles only); the −5
terminal penalty is applied exactly once, at the removal pass of the tick
the agent dies, after which the agent is out of the live list. -/
theorem C8_fitness_amended (P : Params) (gW : ℚ) (nl : NumLib) (ag : Agent)
    (l : List Agent) :
    (stepAgent P gW nl ag).fitness =
      ag.fitness + tickReward gW nl.halfPi (stepAgent P gW nl ag).pend ∧
    (removalPass l).2 = (l.filter (fun a => a.pend.is_dead)).map penalize ∧
    (∀ a ∈ (removalPass l).1, a.pend.is_dead = false) := by
  refine ⟨?_, removalPass_snd _, ?_⟩
  · simp only [stepAgent, tickReward]
    split_ifs with h <;> ring
  · intro a ha
    rw [removalPass_fst] at ha
    simpa using (List.of_mem_filter ha)

/-- C8 counterexample: the per-tick increment is not of the claimed form
"survival reward minus a penalty proportional to |angle| minus a penalty
proportional to the normalized distance": with the distance fixed at 0, the
increment at angles 0, π/4 and π/2 (with π/2 read as 157/100) is not affine
in |angle|, because of the extra −0.5 jump past π/4. -/
theorem C8_counterexample :
    ¬ ∃ base ca cd : ℚ, ∀ s : PState,
      tickReward 1200 (157 / 100) s =
        base - ca * |s.theta| - cd * (|s.x_cart - 600| / 600) := by
  rintro ⟨base, ca, cd, h⟩
  have h0 := h ⟨false, 0, 600, 0, 0, 0⟩
  have h1 := h ⟨false, 0, 600, 0, 157 / 200, 0⟩
  have h2 := h ⟨false, 0, 600, 0, 157 / 100, 0⟩
  rw [tickReward] at h0 h1 h2
  simp only [abs_zero] at h0 h1 h2
  rw [abs_of_nonneg (by norm_num : (0 : ℚ) ≤ 157 / 200)] at h1
  rw [abs_of_nonneg (by norm_num : (0 : ℚ) ≤ 157 / 100)] at h2
  norm_num at h0 h1 h2
  linarith

/-- C7 witness: the tick-removal theorem applied to a concrete one-agent
population — survivors and removed together account for that one agent
exactly once. -/
theorem C7_tick_removal_witness :
    (tick P0 1200 nl0 [ag0]).1.length + (tick P0 1200 nl0 [ag0]).2.length = 1 :=
  (C7_tick_removal P0 1200 nl0 [ag0]).2.2.2.1

/-- C8 witness: the fitness theorem applied to a concrete agent — its
post-tick fitness is its old fitness plus the per-tick reward of its own
post-update state. -/
theorem C8_fitness_amended_witness :
    (stepAgent P0 1200 nl0 ag0).fitness =
      ag0.fitness + tickReward 1200 nl0.halfPi (stepAgent P0 1200 nl0 ag0).pend :=
  (C8_fitness_amended P0 1200 nl0 ag0 []).1
